import Mathlib

/-!
# Verification of the code2vec keras model core (`config.py`, `keras_model.py`)

This file gives a shallow embedding of the configuration record and of the
model-lifecycle operations of the code2vec keras implementation, and proves
properties of the embedded definitions.

Python integers are embedded as `Nat` (all quantities involved are
non-negative), Python strings as `String` (or `List Char` where character-level
reasoning is needed), the file system as the list of existing paths, and
fallible code as a trace of effects together with an optional error.
-/

namespace Code2Vec

/-- The command-line argument record consumed by `Config.get_default_config`
(fields `args.dl_framework`, `args.data_path`, `args.test_path`,
`args.save_path`, `args.load_path`, `args.release`,
`args.export_code_vectors`).  A Python `None` is embedded as `""`. -/
structure Args where
  dl_framework : String
  data_path : String
  test_path : String
  save_path : String
  load_path : String
  release : Bool
  export_code_vectors : Bool

/-- Embedding of the `Config` object of `config.py`.  Integer hyperparameters
are `Nat`, the dropout keep-rate is `ℚ`.  The field `TRAIN_DATA_PATH_PREFIX_`
mirrors the Python attribute of the same spelling without the trailing
underscore. -/
structure Config where
  DL_FRAMEWORK : String
  NUM_EPOCHS : Nat
  SAVE_EVERY_EPOCHS : Nat
  TRAIN_BATCH_SIZE : Nat
  TEST_BATCH_SIZE : Nat
  READING_BATCH_SIZE : Nat
  NUM_BATCHING_THREADS : Nat
  BATCH_QUEUE_SIZE : Nat
  MAX_CONTEXTS : Nat
  MAX_TOKEN_VOCAB_SIZE : Nat
  MAX_TARGET_VOCAB_SIZE : Nat
  MAX_PATH_VOCAB_SIZE : Nat
  EMBEDDINGS_SIZE : Nat
  TOKEN_EMBEDDINGS_SIZE : Nat
  PATH_EMBEDDINGS_SIZE : Nat
  CONTEXT_EMBEDDINGS_SIZE : Nat
  CODE_VECTOR_SIZE : Nat
  TARGET_EMBEDDINGS_SIZE : Nat
  MAX_TO_KEEP : Nat
  DROPOUT_KEEP_RATE : ℚ
  TOP_K_WORDS_CONSIDERED_DURING_PREDICTION : Nat
  READER_NUM_PARALLEL_BATCHES : Nat
  SHUFFLE_BUFFER_SIZE : Nat
  CSV_BUFFER_SIZE : Nat
  MODEL_SAVE_PATH : String
  MODEL_LOAD_PATH : String
  TRAIN_DATA_PATH_PREFIX_ : String
  TEST_DATA_PATH : String
  RELEASE : Bool
  EXPORT_CODE_VECTORS : Bool
  NUM_TRAIN_EXAMPLES : Nat
  NUM_TEST_EXAMPLES : Nat
  deriving DecidableEq

/-- Embedding of `Config.get_default_config(args)` (`config.py` lines 5-41).
The fields that Python's `Config.__init__` initialises and
`get_default_config` does not override (`NUM_TRAIN_EXAMPLES`,
`NUM_TEST_EXAMPLES`) keep their `__init__` values. -/
def Config.get_default_config (args : Args) : Config :=
  let TRAIN_BATCH_SIZE := 512
  let EMBEDDINGS_SIZE := 128
  let TOKEN_EMBEDDINGS_SIZE := EMBEDDINGS_SIZE
  let PATH_EMBEDDINGS_SIZE := EMBEDDINGS_SIZE
  let CONTEXT_EMBEDDINGS_SIZE := PATH_EMBEDDINGS_SIZE + 2 * TOKEN_EMBEDDINGS_SIZE
  let CODE_VECTOR_SIZE := CONTEXT_EMBEDDINGS_SIZE
  { DL_FRAMEWORK := if args.dl_framework = "" then "keras" else args.dl_framework
    NUM_EPOCHS := 20
    SAVE_EVERY_EPOCHS := 1
    TRAIN_BATCH_SIZE := TRAIN_BATCH_SIZE
    TEST_BATCH_SIZE := TRAIN_BATCH_SIZE
    READING_BATCH_SIZE := 1300 * 4
    NUM_BATCHING_THREADS := 2
    BATCH_QUEUE_SIZE := 300000
    MAX_CONTEXTS := 200
    MAX_TOKEN_VOCAB_SIZE := 1301136
    MAX_TARGET_VOCAB_SIZE := 261245
    MAX_PATH_VOCAB_SIZE := 911417
    EMBEDDINGS_SIZE := EMBEDDINGS_SIZE
    TOKEN_EMBEDDINGS_SIZE := TOKEN_EMBEDDINGS_SIZE
    PATH_EMBEDDINGS_SIZE := PATH_EMBEDDINGS_SIZE
    CONTEXT_EMBEDDINGS_SIZE := CONTEXT_EMBEDDINGS_SIZE
    CODE_VECTOR_SIZE := CODE_VECTOR_SIZE
    TARGET_EMBEDDINGS_SIZE := CODE_VECTOR_SIZE
    MAX_TO_KEEP := 10
    DROPOUT_KEEP_RATE := 3 / 4
    TOP_K_WORDS_CONSIDERED_DURING_PREDICTION := 10
    READER_NUM_PARALLEL_BATCHES := 6
    SHUFFLE_BUFFER_SIZE := 10000
    CSV_BUFFER_SIZE := 100 * 1024 * 1024
    MODEL_SAVE_PATH := args.save_path
    MODEL_LOAD_PATH := args.load_path
    TRAIN_DATA_PATH_PREFIX_ := args.data_path
    TEST_DATA_PATH := args.test_path
    RELEASE := args.release
    EXPORT_CODE_VECTORS := args.export_code_vectors
    NUM_TRAIN_EXAMPLES := 0
    NUM_TEST_EXAMPLES := 0 }

/-- Embedding of the property `Config.train_steps_per_epoch`
(`config.py` lines 82-84): `ceil(NUM_TRAIN_EXAMPLES / TRAIN_BATCH_SIZE)`,
with the exact (rational) division in place of Python's float division. -/
def Config.train_steps_per_epoch (c : Config) : Nat :=
  ⌈(c.NUM_TRAIN_EXAMPLES : ℚ) / (c.TRAIN_BATCH_SIZE : ℚ)⌉₊

/-- Embedding of the property `Config.test_steps_per_epoch`
(`config.py` lines 86-88). -/
def Config.test_steps_per_epoch (c : Config) : Nat :=
  ⌈(c.NUM_TEST_EXAMPLES : ℚ) / (c.TEST_BATCH_SIZE : ℚ)⌉₊

/-- Embedding of `Config.get_full_model_path` (`config.py` lines 109-111). -/
def Config.get_full_model_path (model_path : String) : String :=
  model_path ++ "-full"

/-- Embedding of `Config.get_model_weights_path` (`config.py` lines 113-115). -/
def Config.get_model_weights_path (model_path : String) : String :=
  model_path ++ "-only-weights"

/-- Embedding of the property `Config.full_model_load_path`. -/
def Config.full_model_load_path (c : Config) : String :=
  Config.get_full_model_path c.MODEL_LOAD_PATH

/-- Embedding of the property `Config.model_weights_load_path`. -/
def Config.model_weights_load_path (c : Config) : String :=
  Config.get_model_weights_path c.MODEL_LOAD_PATH

/-- Embedding of the property `Config.full_model_save_path`. -/
def Config.full_model_save_path (c : Config) : String :=
  Config.get_full_model_path c.MODEL_SAVE_PATH

/-- Embedding of the property `Config.model_weights_save_path`. -/
def Config.model_weights_save_path (c : Config) : String :=
  Config.get_model_weights_path c.MODEL_SAVE_PATH

/-- Embedding of the property `Config.train_data_path` (`config.py`
lines 96-98). -/
def Config.train_data_path (c : Config) : String :=
  c.TRAIN_DATA_PATH_PREFIX_ ++ ".train.c2v"

/-- Embedding of the property `Config.word_freq_dict_path` (`config.py`
lines 100-102). -/
def Config.word_freq_dict_path (c : Config) : String :=
  c.TRAIN_DATA_PATH_PREFIX_ ++ ".dict.c2v"

/-- The rational ceiling of a quotient of naturals is the usual integer
ceiling-division formula. -/
lemma ceil_nat_div_eq (a b : Nat) (hb : 0 < b) :
    ⌈(a : ℚ) / (b : ℚ)⌉₊ = (a + b - 1) / b := by
  have hbQ : (0 : ℚ) < (b : ℚ) := by exact_mod_cast hb
  apply le_antisymm
  · rw [Nat.ceil_le, div_le_iff₀ hbQ]
    have key : a ≤ (a + b - 1) / b * b := by
      have h1 := Nat.div_add_mod (a + b - 1) b
      have h2 := Nat.mod_lt (a + b - 1) hb
      have h3 : (a + b - 1) / b * b = b * ((a + b - 1) / b) := Nat.mul_comm _ _
      omega
    exact_mod_cast Nat.cast_le.mpr key
  · have h := Nat.le_ceil ((a : ℚ) / (b : ℚ))
    rw [div_le_iff₀ hbQ] at h
    have key : a ≤ ⌈(a : ℚ) / (b : ℚ)⌉₊ * b := by exact_mod_cast h
    rw [Nat.div_le_iff_le_mul_add_pred hb]
    have h3 : b * ⌈(a : ℚ) / (b : ℚ)⌉₊ = ⌈(a : ℚ) / (b : ℚ)⌉₊ * b :=
      Nat.mul_comm _ _
    omega

/-- C5: in the default configuration, the combined per-context embedding width
equals the path-embedding width plus twice the token-embedding width, and the
code-vector width equals that combined width. -/
theorem C5_default_config_derived_widths (args : Args) :
    (Config.get_default_config args).CONTEXT_EMBEDDINGS_SIZE =
        (Config.get_default_config args).PATH_EMBEDDINGS_SIZE +
          2 * (Config.get_default_config args).TOKEN_EMBEDDINGS_SIZE ∧
      (Config.get_default_config args).CODE_VECTOR_SIZE =
        (Config.get_default_config args).CONTEXT_EMBEDDINGS_SIZE := by
  constructor <;> rfl

/-- C7: whenever the batch sizes are positive, `train_steps_per_epoch` is the
ceiling of `NUM_TRAIN_EXAMPLES / TRAIN_BATCH_SIZE` (as the integer
ceiling-division `(n + b - 1) / b`), `test_steps_per_epoch` is the ceiling of
`NUM_TEST_EXAMPLES / TEST_BATCH_SIZE`, and in particular 1000 training
examples with batch size 512 give 2 steps per epoch. -/
theorem C7_steps_per_epoch_is_ceil_div (c : Config)
    (htrain : 0 < c.TRAIN_BATCH_SIZE) (htest : 0 < c.TEST_BATCH_SIZE) :
    c.train_steps_per_epoch =
        (c.NUM_TRAIN_EXAMPLES + c.TRAIN_BATCH_SIZE - 1) / c.TRAIN_BATCH_SIZE ∧
      c.test_steps_per_epoch =
        (c.NUM_TEST_EXAMPLES + c.TEST_BATCH_SIZE - 1) / c.TEST_BATCH_SIZE ∧
      (c.NUM_TRAIN_EXAMPLES = 1000 → c.TRAIN_BATCH_SIZE = 512 →
        c.train_steps_per_epoch = 2) := by
  refine ⟨ceil_nat_div_eq _ _ htrain, ceil_nat_div_eq _ _ htest, ?_⟩
  intro h1000 h512
  unfold Config.train_steps_per_epoch
  rw [h1000, h512, ceil_nat_div_eq 1000 512 (by norm_num)]

/-- A concrete configuration used to instantiate hypotheses of the theorems
below: the default configuration with 1000 training examples and 100 test
examples recorded. -/
def cfgSteps : Config :=
  { Config.get_default_config ⟨"", "data", "test", "save", "load", false, false⟩ with
    NUM_TRAIN_EXAMPLES := 1000, NUM_TEST_EXAMPLES := 100 }

/-- Witness for C7 at the concrete configuration `cfgSteps` (1000 training
examples, batch size 512 for both training and testing, 100 test examples). -/
theorem C7_steps_per_epoch_is_ceil_div_witness :
    (0 < cfgSteps.TRAIN_BATCH_SIZE) ∧ (0 < cfgSteps.TEST_BATCH_SIZE) ∧
      (cfgSteps.train_steps_per_epoch =
          (cfgSteps.NUM_TRAIN_EXAMPLES + cfgSteps.TRAIN_BATCH_SIZE - 1) /
            cfgSteps.TRAIN_BATCH_SIZE ∧
        cfgSteps.test_steps_per_epoch =
          (cfgSteps.NUM_TEST_EXAMPLES + cfgSteps.TEST_BATCH_SIZE - 1) /
            cfgSteps.TEST_BATCH_SIZE ∧
        (cfgSteps.NUM_TRAIN_EXAMPLES = 1000 → cfgSteps.TRAIN_BATCH_SIZE = 512 →
          cfgSteps.train_steps_per_epoch = 2)) :=
  ⟨by decide, by decide,
    C7_steps_per_epoch_is_ceil_div cfgSteps (by decide) (by decide)⟩

/-! ## The checkpoint-saver callback (`keras_model.py` lines 21-33) -/

/-- The state read and written by `ModelCheckpointSaverCallback`: the model's
`nr_epochs_trained` counter and the callback's `last_saved_epoch` field. -/
structure CheckpointSaverState where
  nr_epochs_trained : Nat
  last_saved_epoch : Nat
  deriving DecidableEq

/-- Embedding of `ModelCheckpointSaverCallback.__init__` (`keras_model.py`
lines 22-25): `last_saved_epoch` is initialised to the model's current
`nr_epochs_trained`. -/
def mkModelCheckpointSaverCallback (nr_epochs_trained : Nat) :
    CheckpointSaverState :=
  ⟨nr_epochs_trained, nr_epochs_trained⟩

/-- Embedding of `ModelCheckpointSaverCallback.on_epoch_end` (`keras_model.py`
lines 27-33): increment `nr_epochs_trained`; if the number of non-saved epochs
has reached `SAVE_EVERY_EPOCHS`, call `save()` and record the epoch as saved.
Returns the new state and whether `save()` was invoked. -/
def on_epoch_end (SAVE_EVERY_EPOCHS : Nat) (st : CheckpointSaverState) :
    CheckpointSaverState × Bool :=
  let nr_epochs_trained := st.nr_epochs_trained + 1
  let nr_non_saved_epochs := nr_epochs_trained - st.last_saved_epoch
  if SAVE_EVERY_EPOCHS ≤ nr_non_saved_epochs then
    (⟨nr_epochs_trained, nr_epochs_trained⟩, true)
  else
    (⟨nr_epochs_trained, st.last_saved_epoch⟩, false)

/-- The callback state after `n` epoch boundaries of a training run that
started from a freshly-constructed callback over a model with
`nr_epochs_trained = nr0`. -/
def run_epochs (SAVE_EVERY_EPOCHS nr0 : Nat) : Nat → CheckpointSaverState
  | 0 => mkModelCheckpointSaverCallback nr0
  | n + 1 => (on_epoch_end SAVE_EVERY_EPOCHS (run_epochs SAVE_EVERY_EPOCHS nr0 n)).1

lemma run_epochs_invariant (S nr0 n : Nat) (hS : 1 ≤ S) :
    (run_epochs S nr0 n).last_saved_epoch ≤ (run_epochs S nr0 n).nr_epochs_trained ∧
      (run_epochs S nr0 n).nr_epochs_trained -
          (run_epochs S nr0 n).last_saved_epoch < S := by
  induction n with
  | zero =>
    simp only [run_epochs, mkModelCheckpointSaverCallback]
    omega
  | succ n ih =>
    simp only [run_epochs, on_epoch_end]
    split
    · dsimp only
      omega
    · dsimp only
      omega

/-- C4 (amended with `1 ≤ SAVE_EVERY_EPOCHS`): at every epoch boundary the
trained-epoch counter is incremented by exactly one, a save is performed
exactly when the number of epochs completed since the last save reaches
`SAVE_EVERY_EPOCHS`, and after every epoch-end step
`nr_epochs_trained - last_saved_epoch < SAVE_EVERY_EPOCHS`. -/
theorem C4_checkpoint_cadence (S nr0 n : Nat) (hS : 1 ≤ S) :
    ((on_epoch_end S (run_epochs S nr0 n)).1.nr_epochs_trained =
        (run_epochs S nr0 n).nr_epochs_trained + 1) ∧
      ((on_epoch_end S (run_epochs S nr0 n)).2 = true ↔
        S ≤ (run_epochs S nr0 n).nr_epochs_trained + 1 -
            (run_epochs S nr0 n).last_saved_epoch) ∧
      (run_epochs S nr0 (n + 1)).nr_epochs_trained -
          (run_epochs S nr0 (n + 1)).last_saved_epoch < S := by
  refine ⟨?_, ?_, (run_epochs_invariant S nr0 (n + 1) hS).2⟩
  · simp only [on_epoch_end]
    split <;> dsimp only
  · simp only [on_epoch_end]
    split
    · next h => exact iff_of_true rfl h
    · next h => exact iff_of_false (by simp) h

/-- Witness for C4 at `SAVE_EVERY_EPOCHS = 1`, a fresh model, and the third
epoch boundary. -/
theorem C4_checkpoint_cadence_witness :
    1 ≤ 1 ∧
      (((on_epoch_end 1 (run_epochs 1 0 2)).1.nr_epochs_trained =
          (run_epochs 1 0 2).nr_epochs_trained + 1) ∧
        ((on_epoch_end 1 (run_epochs 1 0 2)).2 = true ↔
          1 ≤ (run_epochs 1 0 2).nr_epochs_trained + 1 -
              (run_epochs 1 0 2).last_saved_epoch) ∧
        (run_epochs 1 0 (2 + 1)).nr_epochs_trained -
            (run_epochs 1 0 (2 + 1)).last_saved_epoch < 1) :=
  ⟨Nat.le_refl 1, C4_checkpoint_cadence 1 0 2 (Nat.le_refl 1)⟩

/-- C4 counterexample: with `SAVE_EVERY_EPOCHS = 0`, after the very first
epoch-end step the callback has saved (`last_saved_epoch = nr_epochs_trained
= 1`), and the claimed bound `nr_epochs_trained - last_saved_epoch <
SAVE_EVERY_EPOCHS` is false. -/
theorem C4_counterexample_save_every_zero :
    (on_epoch_end 0 (mkModelCheckpointSaverCallback 0)).1.nr_epochs_trained = 1 ∧
      (on_epoch_end 0 (mkModelCheckpointSaverCallback 0)).1.last_saved_epoch = 1 ∧
      ¬ ((on_epoch_end 0 (mkModelCheckpointSaverCallback 0)).1.nr_epochs_trained -
            (on_epoch_end 0 (mkModelCheckpointSaverCallback 0)).1.last_saved_epoch
          < 0) := by
  decide

/-! ## Saving (`keras_model.py` lines 219-224 and 263-267) -/

/-- The externally visible effect of `Code2VecModel._save_inner_model`. -/
inductive SaveAction where
  | save_weights (file_path : String)
  | full_checkpoint (directory : String) (max_to_keep checkpoint_number : Nat)
  deriving DecidableEq

/-- Embedding of `Code2VecModel._save_inner_model(path)` (`keras_model.py`
lines 219-224) combined with `_get_save_checkpoint_manager` (lines 263-267):
when `config.RELEASE`, write the weights-only file at
`config.get_model_weights_path(path)`; otherwise the checkpoint manager —
constructed over the directory `config.full_model_save_path` with retention
`config.MAX_TO_KEEP` — saves a full checkpoint numbered with the current
`nr_epochs_trained`. -/
def save_inner_model (c : Config) (nr_epochs_trained : Nat) (path : String) :
    SaveAction :=
  if c.RELEASE then
    SaveAction.save_weights (Config.get_model_weights_path path)
  else
    SaveAction.full_checkpoint c.full_model_save_path c.MAX_TO_KEEP
      nr_epochs_trained

/-- A concrete non-release configuration whose configured save path differs
from the `path` argument passed to `_save_inner_model`. -/
def cfgSave : Config :=
  Config.get_default_config
    ⟨"", "data", "test", "modeldir/model", "modeldir/model", false, false⟩

/-- C8 counterexample: for a non-release configuration with
`MODEL_SAVE_PATH = "modeldir/model"`, calling `_save_inner_model` with the
argument `path = "p"` writes the full checkpoint under
`MODEL_SAVE_PATH + "-full"`, not under `path + "-full"`. -/
theorem C8_counterexample_full_checkpoint_dir :
    save_inner_model cfgSave 0 "p" =
        SaveAction.full_checkpoint ("modeldir/model" ++ "-full") 10 0 ∧
      ("modeldir/model" ++ "-full" : String) ≠ ("p" ++ "-full" : String) := by
  constructor
  · rfl
  · decide

/-- C8 (amended): `_save_inner_model` selects exactly one of two mutually
exclusive strategies, decided by the `RELEASE` flag: when `RELEASE` is true it
writes a weights-only file at `path + "-only-weights"`; otherwise it writes a
full checkpoint, numbered with the current `nr_epochs_trained`, under the
configured `MODEL_SAVE_PATH + "-full"` (not under the `path` argument) through
a checkpoint manager retaining at most `MAX_TO_KEEP` checkpoints. -/
theorem C8_save_strategy_by_release (c : Config) (n : Nat) (path : String) :
    (c.RELEASE = true →
        save_inner_model c n path =
          SaveAction.save_weights (path ++ "-only-weights")) ∧
      (c.RELEASE = false →
        save_inner_model c n path =
          SaveAction.full_checkpoint (c.MODEL_SAVE_PATH ++ "-full")
            c.MAX_TO_KEEP n) ∧
      (∀ fp dir k m,
        ¬ (save_inner_model c n path = SaveAction.save_weights fp ∧
            save_inner_model c n path = SaveAction.full_checkpoint dir k m)) := by
  refine ⟨fun h => ?_, fun h => ?_, fun fp dir k m ⟨h1, h2⟩ => ?_⟩
  · simp [save_inner_model, h, Config.get_model_weights_path]
  · simp [save_inner_model, h, Config.full_model_save_path,
      Config.get_full_model_path]
  · rw [h1] at h2
    exact SaveAction.noConfusion h2

/-- Witness for C8 at the concrete configuration `cfgSave`,
`nr_epochs_trained = 3`, `path = "p"`. -/
theorem C8_save_strategy_by_release_witness :
    (cfgSave.RELEASE = true →
        save_inner_model cfgSave 3 "p" =
          SaveAction.save_weights ("p" ++ "-only-weights")) ∧
      (cfgSave.RELEASE = false →
        save_inner_model cfgSave 3 "p" =
          SaveAction.full_checkpoint (cfgSave.MODEL_SAVE_PATH ++ "-full")
            cfgSave.MAX_TO_KEEP 3) ∧
      (∀ fp dir k m,
        ¬ (save_inner_model cfgSave 3 "p" = SaveAction.save_weights fp ∧
            save_inner_model cfgSave 3 "p" = SaveAction.full_checkpoint dir k m)) :=
  C8_save_strategy_by_release cfgSave 3 "p"

/-! ## Loading (`keras_model.py` lines 231-255) -/

/-- Embedding of Python's `str.split('-')` on the character list of a string:
splits at every occurrence of the character, keeping empty segments, and
always returns at least one segment. -/
def pySplitDash : List Char → List (List Char)
  | [] => [[]]
  | c :: rest =>
    if c = '-' then [] :: pySplitDash rest
    else
      match pySplitDash rest with
      | [] => [[c]]
      | s :: ss => (c :: s) :: ss

/-- Embedding of Python's `int(s)` on a string of decimal digits. -/
def pyIntOfDigits (s : List Char) : Nat :=
  s.foldl (fun acc c => 10 * acc + (c.toNat - 48)) 0

/-- Embedding of `int(latest_checkpoint.split('-')[-1])` from
`Code2VecModel._load_inner_model` (`keras_model.py` line 250): the numeric
suffix of the checkpoint name after the last dash.  Python's `[-1]` indexing
is the last element; `pySplitDash` never returns an empty list, so the
default of `getLastD` is never used. -/
def epochs_from_checkpoint_name (latest_checkpoint : String) : Nat :=
  pyIntOfDigits ((pySplitDash latest_checkpoint.data).getLastD [])

/-- One externally visible step of `Code2VecModel._load_inner_model`. -/
inductive LoadStep where
  | create_model
  | compile_model
  | restore_full_checkpoint (directory : String)
  | load_weights (file_path : String)
  | set_nr_epochs_trained (n : Nat)
  deriving DecidableEq

/-- Embedding of `Code2VecModel._load_inner_model` (`keras_model.py` lines
231-255) as the trace of steps it performs together with the error it raises,
if any.  The file system is embedded as the list `fs` of existing paths, and
`latest_checkpoint` is the name the external checkpoint bookkeeping reports
for the latest checkpoint of the full-model load directory.  The Python
truthiness test on `config.TRAIN_DATA_PATH_PREFIX` is non-emptiness. -/
def load_inner_model (c : Config) (fs : List String)
    (latest_checkpoint : String) : List LoadStep × Option String :=
  let steps := [LoadStep.create_model, LoadStep.compile_model]
  let must_use_full_model := c.TRAIN_DATA_PATH_PREFIX_ ≠ ""
  if must_use_full_model ∧ c.full_model_load_path ∉ fs then
    (steps, some "There is no model at the full-model load path. When loading the model for further training, we must use a full saved model file (not just weights).")
  else
    let use_full_model := must_use_full_model ∨ c.model_weights_load_path ∉ fs
    if use_full_model then
      (steps ++
        [LoadStep.restore_full_checkpoint c.full_model_load_path,
          LoadStep.compile_model,
          LoadStep.set_nr_epochs_trained
            (epochs_from_checkpoint_name latest_checkpoint)],
        none)
    else
      (steps ++ [LoadStep.load_weights c.model_weights_load_path], none)

/-- C2: `_load_inner_model` raises its configuration error if and only if a
training data path prefix is configured and no full checkpoint exists at
`MODEL_LOAD_PATH + "-full"`; and when the error is raised, no restore of any
kind (neither a full-checkpoint restore nor a weights load) is performed. -/
theorem C2_load_error_iff (c : Config) (fs : List String) (latest : String) :
    ((load_inner_model c fs latest).2.isSome ↔
        (c.TRAIN_DATA_PATH_PREFIX_ ≠ "" ∧ (c.MODEL_LOAD_PATH ++ "-full") ∉ fs)) ∧
      ((load_inner_model c fs latest).2.isSome →
        (∀ d, LoadStep.restore_full_checkpoint d ∉ (load_inner_model c fs latest).1) ∧
          (∀ p, LoadStep.load_weights p ∉ (load_inner_model c fs latest).1)) := by
  have hpath : c.full_model_load_path = c.MODEL_LOAD_PATH ++ "-full" := rfl
  by_cases herr : c.TRAIN_DATA_PATH_PREFIX_ ≠ "" ∧ c.full_model_load_path ∉ fs
  · constructor
    · simp only [load_inner_model, if_pos herr, Option.isSome_some, true_iff]
      rw [← hpath]
      exact herr
    · intro _
      constructor <;> intro x
      · simp [load_inner_model, if_pos herr]
      · simp [load_inner_model, if_pos herr]
  · constructor
    · simp only [load_inner_model, if_neg herr]
      rw [← hpath]
      split <;> simpa using herr
    · intro habs
      exfalso
      simp only [load_inner_model, if_neg herr] at habs
      split at habs <;> simp at habs

/-- Witness for C2 at the concrete configuration `cfgSave` (its training data
path prefix is `"data"`) and an empty file system, where the error fires. -/
theorem C2_load_error_iff_witness :
    (((load_inner_model cfgSave [] "x").2.isSome ↔
        (cfgSave.TRAIN_DATA_PATH_PREFIX_ ≠ "" ∧
          (cfgSave.MODEL_LOAD_PATH ++ "-full") ∉ ([] : List String))) ∧
      ((load_inner_model cfgSave [] "x").2.isSome →
        (∀ d, LoadStep.restore_full_checkpoint d ∉
            (load_inner_model cfgSave [] "x").1) ∧
          (∀ p, LoadStep.load_weights p ∉
            (load_inner_model cfgSave [] "x").1))) :=
  C2_load_error_iff cfgSave [] "x"

/-- C10: for every inference-only load (no training data path prefix
configured), no error is raised, weights-only loading is used exactly when a
file exists at `MODEL_LOAD_PATH + "-only-weights"`, and when that file is
absent a full-checkpoint restore from `MODEL_LOAD_PATH + "-full"` is attempted
instead. -/
theorem C10_inference_load_strategy (c : Config) (fs : List String)
    (latest : String) (hpref : c.TRAIN_DATA_PATH_PREFIX_ = "") :
    ((load_inner_model c fs latest).2 = none) ∧
      (LoadStep.load_weights (c.MODEL_LOAD_PATH ++ "-only-weights") ∈
          (load_inner_model c fs latest).1 ↔
        (c.MODEL_LOAD_PATH ++ "-only-weights") ∈ fs) ∧
      ((c.MODEL_LOAD_PATH ++ "-only-weights") ∉ fs →
        LoadStep.restore_full_checkpoint (c.MODEL_LOAD_PATH ++ "-full") ∈
          (load_inner_model c fs latest).1) := by
  have hw : c.model_weights_load_path = c.MODEL_LOAD_PATH ++ "-only-weights" := rfl
  have hf : c.full_model_load_path = c.MODEL_LOAD_PATH ++ "-full" := rfl
  have hcond : ¬ (c.TRAIN_DATA_PATH_PREFIX_ ≠ "" ∧ c.full_model_load_path ∉ fs) := by
    simp [hpref]
  by_cases hmem : c.model_weights_load_path ∈ fs
  · have huse : ¬ (c.TRAIN_DATA_PATH_PREFIX_ ≠ "" ∨ c.model_weights_load_path ∉ fs) := by
      simp [hpref, hmem]
    simp only [load_inner_model, if_neg hcond, if_neg huse]
    rw [← hw]
    refine ⟨by trivial, ?_, fun habs => absurd hmem habs⟩
    simp [hmem]
  · have huse : c.TRAIN_DATA_PATH_PREFIX_ ≠ "" ∨ c.model_weights_load_path ∉ fs :=
      Or.inr hmem
    simp only [load_inner_model, if_neg hcond, if_pos huse]
    rw [← hw, ← hf]
    refine ⟨by trivial, ?_, fun _ => ?_⟩
    · simp [hmem]
    · simp

/-- A concrete inference-only configuration: no training data path prefix. -/
def cfgInfer : Config :=
  Config.get_default_config ⟨"", "", "test", "save", "loadp", false, false⟩

/-- Witness for C10 at the concrete configuration `cfgInfer` and a file system
holding exactly the weights-only file. -/
theorem C10_inference_load_strategy_witness :
    cfgInfer.TRAIN_DATA_PATH_PREFIX_ = "" ∧
      (((load_inner_model cfgInfer ["loadp-only-weights"] "x").2 = none) ∧
        (LoadStep.load_weights (cfgInfer.MODEL_LOAD_PATH ++ "-only-weights") ∈
            (load_inner_model cfgInfer ["loadp-only-weights"] "x").1 ↔
          (cfgInfer.MODEL_LOAD_PATH ++ "-only-weights") ∈ ["loadp-only-weights"]) ∧
        ((cfgInfer.MODEL_LOAD_PATH ++ "-only-weights") ∉ ["loadp-only-weights"] →
          LoadStep.restore_full_checkpoint (cfgInfer.MODEL_LOAD_PATH ++ "-full") ∈
            (load_inner_model cfgInfer ["loadp-only-weights"] "x").1)) :=
  ⟨rfl, C10_inference_load_strategy cfgInfer ["loadp-only-weights"] "x" rfl⟩

/-! ## The epoch-counter round trip through a full checkpoint (C3) -/

/-- The decimal rendering `str(n)` of a natural number, most significant digit
first. -/
def pyStrNat (n : Nat) : List Char :=
  if n = 0 then ['0'] else ((Nat.digits 10 n).map Nat.digitChar).reverse

lemma pySplitDash_ne_nil (l : List Char) : pySplitDash l ≠ [] := by
  cases l with
  | nil => simp [pySplitDash]
  | cons c rest =>
    simp only [pySplitDash]
    split
    · simp
    · split
      · simp
      · simp

lemma pySplitDash_dash_cons (ys : List Char) :
    pySplitDash ('-' :: ys) = [] :: pySplitDash ys := by
  simp [pySplitDash]

lemma two_le_pySplitDash_length (xs ys : List Char) :
    2 ≤ (pySplitDash (xs ++ '-' :: ys)).length := by
  induction xs with
  | nil =>
    rw [List.nil_append, pySplitDash_dash_cons, List.length_cons]
    have h : 0 < (pySplitDash ys).length :=
      List.length_pos.mpr (pySplitDash_ne_nil ys)
    omega
  | cons c xs ih =>
    simp only [List.cons_append, pySplitDash, List.append_eq]
    split
    · simp only [List.length_cons]
      omega
    · split
      · next heq => exact absurd heq (pySplitDash_ne_nil _)
      · next s ss heq =>
        rw [heq, List.length_cons] at ih
        simp only [List.length_cons]
        omega

lemma pySplitDash_getLastD_append (xs ys : List Char) :
    (pySplitDash (xs ++ '-' :: ys)).getLastD [] =
      (pySplitDash ys).getLastD [] := by
  induction xs with
  | nil =>
    rw [List.nil_append, pySplitDash_dash_cons, List.getLastD_cons]
  | cons c xs ih =>
    have hlen := two_le_pySplitDash_length xs ys
    simp only [List.cons_append, pySplitDash, List.append_eq]
    split
    · rw [List.getLastD_cons]
      exact ih
    · split
      · next heq => exact absurd heq (pySplitDash_ne_nil _)
      · next s ss heq =>
        rw [heq, List.length_cons] at hlen
        rw [heq, List.getLastD_cons] at ih
        cases ss with
        | nil => simp at hlen
        | cons s2 ss2 =>
          rw [List.getLastD_cons, List.getLastD_cons]
          rw [List.getLastD_cons] at ih
          exact ih

lemma pySplitDash_of_no_dash (ys : List Char) (h : '-' ∉ ys) :
    pySplitDash ys = [ys] := by
  induction ys with
  | nil => rfl
  | cons c rest ih =>
    have hc : ¬ (c = '-') := fun hc => h (hc ▸ List.mem_cons_self c rest)
    have hrest : '-' ∉ rest := fun hm => h (List.mem_cons_of_mem c hm)
    simp only [pySplitDash, if_neg hc, ih hrest]

lemma digitChar_toNat (d : Nat) (h : d < 10) :
    (Nat.digitChar d).toNat = 48 + d := by
  interval_cases d <;> decide

lemma digitChar_ne_dash (d : Nat) (h : d < 10) : Nat.digitChar d ≠ '-' := by
  interval_cases d <;> decide

lemma dash_not_mem_pyStrNat (n : Nat) : '-' ∉ pyStrNat n := by
  by_cases h0 : n = 0
  · simp [pyStrNat, h0]
  · simp only [pyStrNat, if_neg h0]
    intro hmem
    rw [List.mem_reverse, List.mem_map] at hmem
    obtain ⟨d, hd, hchar⟩ := hmem
    exact digitChar_ne_dash d (Nat.digits_lt_base (by norm_num) hd) hchar

lemma foldr_digitChar_eq_ofDigits (ds : List Nat) (h : ∀ d ∈ ds, d < 10) :
    ds.foldr (fun d acc => 10 * acc + ((Nat.digitChar d).toNat - 48)) 0 =
      Nat.ofDigits 10 ds := by
  induction ds with
  | nil => simp [Nat.ofDigits_nil]
  | cons d ds ih =>
    have hd : d < 10 := h d (List.mem_cons_self d ds)
    have hds : ∀ x ∈ ds, x < 10 := fun x hx => h x (List.mem_cons_of_mem d hx)
    rw [List.foldr_cons, ih hds, digitChar_toNat d hd, Nat.ofDigits_cons]
    omega

lemma pyIntOfDigits_pyStrNat (n : Nat) : pyIntOfDigits (pyStrNat n) = n := by
  by_cases h0 : n = 0
  · simp [pyIntOfDigits, pyStrNat, h0]
  · simp only [pyIntOfDigits, pyStrNat, if_neg h0]
    rw [List.foldl_reverse, List.foldr_map]
    have h := foldr_digitChar_eq_ofDigits (Nat.digits 10 n)
      (fun d hd => Nat.digits_lt_base (by norm_num) hd)
    calc (Nat.digits 10 n).foldr
          (fun x y => 10 * y + ((Nat.digitChar x).toNat - 48)) 0
        = Nat.ofDigits 10 (Nat.digits 10 n) := h
      _ = n := Nat.ofDigits_digits 10 n

/-- Modelled from the spec: the checkpoint file naming of the external
checkpoint bookkeeping (`tf.train.CheckpointManager` /
`tf.train.latest_checkpoint`, not part of this repository).  Per the spec, the
model directory contains "full checkpoints, numbered, plus a latest pointer",
and after saving a checkpoint numbered `n` into `directory` the latest pointer
names `directory ++ "/ckpt-" ++ str(n)`. -/
def latest_checkpoint_name (directory : String) (n : Nat) : String :=
  directory ++ "/ckpt-" ++ ⟨pyStrNat n⟩

lemma epochs_from_checkpoint_name_eq (directory : String) (n : Nat) :
    epochs_from_checkpoint_name (latest_checkpoint_name directory n) = n := by
  unfold epochs_from_checkpoint_name latest_checkpoint_name
  have hdata : (directory ++ "/ckpt-" ++ (⟨pyStrNat n⟩ : String)).data =
      (directory.data ++ ['/', 'c', 'k', 'p', 't']) ++ '-' :: pyStrNat n := by
    rw [String.data_append, String.data_append]
    show directory.data ++ ['/', 'c', 'k', 'p', 't', '-'] ++ pyStrNat n = _
    rw [List.append_assoc, List.append_assoc]
    rfl
  rw [hdata, pySplitDash_getLastD_append,
    pySplitDash_of_no_dash (pyStrNat n) (dash_not_mem_pyStrNat n)]
  simp only [List.getLastD_cons, List.getLastD_nil]
  exact pyIntOfDigits_pyStrNat n

/-- C3: saving a full checkpoint numbered with the current value `n` of
`nr_epochs_trained` and then loading on a fresh instance (whose load path is
the old save path, here required to restore the full model because further
training is requested) recovers `nr_epochs_trained = n`, parsed from the
checkpoint name's numeric suffix. -/
theorem C3_epoch_counter_roundtrip (cS cL : Config) (fs : List String)
    (n : Nat) (hrel : cS.RELEASE = false)
    (hload : cL.MODEL_LOAD_PATH = cS.MODEL_SAVE_PATH)
    (htrain : cL.TRAIN_DATA_PATH_PREFIX_ ≠ "")
    (hexists : cL.full_model_load_path ∈ fs) :
    save_inner_model cS n cS.MODEL_SAVE_PATH =
        SaveAction.full_checkpoint cS.full_model_save_path cS.MAX_TO_KEEP n ∧
      cL.full_model_load_path = cS.full_model_save_path ∧
      LoadStep.set_nr_epochs_trained n ∈
        (load_inner_model cL fs
          (latest_checkpoint_name cL.full_model_load_path n)).1 := by
  refine ⟨?_, ?_, ?_⟩
  · simp [save_inner_model, hrel]
  · unfold Config.full_model_load_path Config.full_model_save_path
    rw [hload]
  · have hcond : ¬ (cL.TRAIN_DATA_PATH_PREFIX_ ≠ "" ∧
        cL.full_model_load_path ∉ fs) := by
      intro ⟨_, habs⟩
      exact habs hexists
    have huse : cL.TRAIN_DATA_PATH_PREFIX_ ≠ "" ∨
        cL.model_weights_load_path ∉ fs := Or.inl htrain
    simp only [load_inner_model, if_neg hcond, if_pos huse]
    rw [epochs_from_checkpoint_name_eq]
    simp

/-- Witness for C3: the configuration `cfgSave` acts as both the saving and
the (fresh) loading instance, the file system holds the full-checkpoint
directory, and the epoch counter is 37. -/
theorem C3_epoch_counter_roundtrip_witness :
    cfgSave.RELEASE = false ∧
      cfgSave.MODEL_LOAD_PATH = cfgSave.MODEL_SAVE_PATH ∧
      cfgSave.TRAIN_DATA_PATH_PREFIX_ ≠ "" ∧
      cfgSave.full_model_load_path ∈ ["modeldir/model-full"] ∧
      (save_inner_model cfgSave 37 cfgSave.MODEL_SAVE_PATH =
          SaveAction.full_checkpoint cfgSave.full_model_save_path
            cfgSave.MAX_TO_KEEP 37 ∧
        cfgSave.full_model_load_path = cfgSave.full_model_save_path ∧
        LoadStep.set_nr_epochs_trained 37 ∈
          (load_inner_model cfgSave ["modeldir/model-full"]
            (latest_checkpoint_name cfgSave.full_model_load_path 37)).1) :=
  ⟨rfl, rfl, by decide, by decide,
    C3_epoch_counter_roundtrip cfgSave cfgSave ["modeldir/model-full"] 37
      rfl rfl (by decide) (by decide)⟩

/-! ## The target-word prediction layer construction
(`keras_model.py` lines 115-121) -/

/-- A candidate-exclusion filter of the word-prediction layer: it receives the
candidate's target-vocabulary index and its string and returns whether to keep
the candidate. -/
abbrev WordFilter := Nat → String → Bool

/-- The construction arguments of `WordPredictionLayer` as instantiated in
`Code2VecModel._create_keras_model`. -/
structure WordPredictionLayerCfg where
  top_k : Nat
  predicted_words_filters : List WordFilter

/-- Embedding of the regular expression `^[a-zA-Z\|]+$` applied through
`tf.strings.regex_full_match` (`keras_model.py` line 120): a full match is a
non-empty string all of whose characters are ASCII letters or the pipe
character. -/
def regex_full_match_alpha_pipe (s : String) : Bool :=
  !s.data.isEmpty && s.data.all (fun c =>
    ('a' ≤ c && c ≤ 'z') || ('A' ≤ c && c ≤ 'Z') || c = '|')

/-- Embedding of the `WordPredictionLayer(...)` construction inside
`Code2VecModel._create_keras_model` (`keras_model.py` lines 115-121): the
first argument is `config.TOP_K_WORDS_CONSIDERED_DURING_PREDICTION`, and
`predicted_words_filters` holds exactly the two default lambdas, where
`oov_index` stands for
`vocabs.target_vocab.word_to_index[SpecialVocabWords.OOV]`. -/
def target_word_prediction_layer_cfg (c : Config) (oov_index : Nat) :
    WordPredictionLayerCfg where
  top_k := c.TOP_K_WORDS_CONSIDERED_DURING_PREDICTION
  predicted_words_filters :=
    [fun word_indices _ => word_indices != oov_index,
      fun _ word_strings => regex_full_match_alpha_pipe word_strings]

/-- Modelled from the spec: `keras_word_prediction_layer.py` is not among the
sources.  Per the spec, the exclusion "predicates compose by logical AND" — a
candidate is kept exactly when every configured filter keeps it. -/
def keeps_candidate (cfg : WordPredictionLayerCfg) (idx : Nat) (s : String) :
    Bool :=
  cfg.predicted_words_filters.all (fun f => f idx s)

/-- C6: the word predictor is constructed with `K =
TOP_K_WORDS_CONSIDERED_DURING_PREDICTION` and exactly two default exclusion
predicates whose AND-composition keeps a candidate iff its index is not the
out-of-vocabulary index and its string is a non-empty string of (possibly
pipe-separated) ASCII-alphabetic characters. -/
theorem C6_word_predictor_default_filters (c : Config) (oov_index idx : Nat)
    (s : String) :
    (target_word_prediction_layer_cfg c oov_index).top_k =
        c.TOP_K_WORDS_CONSIDERED_DURING_PREDICTION ∧
      (target_word_prediction_layer_cfg c oov_index).predicted_words_filters.length
          = 2 ∧
      (keeps_candidate (target_word_prediction_layer_cfg c oov_index) idx s
          = true ↔
        (idx ≠ oov_index ∧ s.data ≠ [] ∧
          ∀ ch ∈ s.data,
            ('a' ≤ ch ∧ ch ≤ 'z') ∨ ('A' ≤ ch ∧ ch ≤ 'Z') ∨ ch = '|')) := by
  refine ⟨rfl, rfl, ?_⟩
  simp only [keeps_candidate, target_word_prediction_layer_cfg,
    regex_full_match_alpha_pipe, List.all_cons, List.all_nil,
    Bool.and_eq_true, Bool.and_true, bne_iff_ne, ne_eq,
    Bool.not_eq_eq_eq_not, Bool.not_true, List.all_eq_true,
    Bool.or_eq_true, decide_eq_true_eq, List.isEmpty_eq_false]
  constructor
  · rintro ⟨h1, h2, h3⟩
    refine ⟨h1, h2, fun ch hch => ?_⟩
    have h := h3 ch hch
    tauto
  · rintro ⟨h1, h2, h3⟩
    refine ⟨h1, h2, fun ch hch => ?_⟩
    have h := h3 ch hch
    tauto

/-! ## The assembled network graph (`keras_model.py` lines 77-128) -/

/-- A reference to a trainable embedding-layer object created during
`_create_keras_model`.  Two applications share weights exactly when they apply
the same layer reference. -/
inductive LayerRef where
  | embedding (layer_name : String) (input_dim output_dim : Nat)
  deriving DecidableEq

/-- A symbolic tensor of the assembled network: the computational graph built
by applying layer objects to input tensors. -/
inductive GraphTensor where
  | input (idx len : Nat)
  | embed (layer : LayerRef) (x : GraphTensor)
  | concat3 (a b c : GraphTensor)
  | dropout (rate : ℚ) (x : GraphTensor)
  | time_distributed_dense (units : Nat) (use_bias : Bool)
      (activation : String) (x : GraphTensor)
  | attention (layer_name : String) (x mask : GraphTensor)
  | dense (layer_name : String) (units : Nat) (use_bias : Bool)
      (activation : String) (x : GraphTensor)
  | word_prediction (layer_name : String) (top_k : Nat) (x : GraphTensor)
  deriving DecidableEq

/-- The wrapped keras model: its input tensors and its output tensors. -/
structure KerasModelGraph where
  inputs : List GraphTensor
  outputs : List GraphTensor
  deriving DecidableEq

/-- The result of `_create_keras_model`: the four input tensors and the
wrapped model. -/
structure BuiltModel where
  path_source_token_input : GraphTensor
  path_input : GraphTensor
  path_target_token_input : GraphTensor
  context_valid_mask : GraphTensor
  keras_model : KerasModelGraph
  deriving DecidableEq

/-- Embedding of `Code2VecModel._create_keras_model` (`keras_model.py` lines
77-128): build the three index inputs and the mask input, embed paths through
the `path_embedding` table, embed source and target tokens through the single
shared `token_embedding` layer object, concatenate, apply dropout with rate
`1 - DROPOUT_KEEP_RATE`, apply the weight-tied bias-free tanh dense layer of
width `CODE_VECTOR_SIZE`, aggregate by attention into `code_vectors`, decode
through the bias-free softmax dense layer `y_hat` of width
`target_vocab_size`, derive `target_word_prediction`, and wrap inputs and the
three outputs into the model. -/
def create_keras_model (c : Config)
    (token_vocab_size path_vocab_size target_vocab_size : Nat) : BuiltModel :=
  let path_source_token_input := GraphTensor.input 0 c.MAX_CONTEXTS
  let path_input := GraphTensor.input 1 c.MAX_CONTEXTS
  let path_target_token_input := GraphTensor.input 2 c.MAX_CONTEXTS
  let context_valid_mask := GraphTensor.input 3 c.MAX_CONTEXTS
  let paths_embedded := GraphTensor.embed
    (LayerRef.embedding "path_embedding" path_vocab_size c.PATH_EMBEDDINGS_SIZE)
    path_input
  let token_embedding_shared_layer :=
    LayerRef.embedding "token_embedding" token_vocab_size c.TOKEN_EMBEDDINGS_SIZE
  let path_source_token_embedded :=
    GraphTensor.embed token_embedding_shared_layer path_source_token_input
  let path_target_token_embedded :=
    GraphTensor.embed token_embedding_shared_layer path_target_token_input
  let context_embedded := GraphTensor.concat3
    path_source_token_embedded paths_embedded path_target_token_embedded
  let context_embedded :=
    GraphTensor.dropout (1 - c.DROPOUT_KEEP_RATE) context_embedded
  let context_after_dense := GraphTensor.time_distributed_dense
    c.CODE_VECTOR_SIZE false "tanh" context_embedded
  let code_vectors :=
    GraphTensor.attention "code_vectors" context_after_dense context_valid_mask
  let y_hat := GraphTensor.dense "y_hat" target_vocab_size false "softmax"
    code_vectors
  let target_word_prediction := GraphTensor.word_prediction
    "target_word_prediction" c.TOP_K_WORDS_CONSIDERED_DURING_PREDICTION y_hat
  { path_source_token_input := path_source_token_input
    path_input := path_input
    path_target_token_input := path_target_token_input
    context_valid_mask := context_valid_mask
    keras_model :=
      { inputs := [path_source_token_input, path_input,
          path_target_token_input, context_valid_mask]
        outputs := [y_hat, code_vectors, target_word_prediction] } }

/-- All embedding-layer applications occurring in a symbolic tensor, as pairs
of the applied layer reference and the tensor it was applied to, in
left-to-right order. -/
def embeddings_applied : GraphTensor → List (LayerRef × GraphTensor)
  | .input _ _ => []
  | .embed l x => (l, x) :: embeddings_applied x
  | .concat3 a b c =>
      embeddings_applied a ++ embeddings_applied b ++ embeddings_applied c
  | .dropout _ x => embeddings_applied x
  | .time_distributed_dense _ _ _ x => embeddings_applied x
  | .attention _ x mask => embeddings_applied x ++ embeddings_applied mask
  | .dense _ _ _ _ x => embeddings_applied x
  | .word_prediction _ _ x => embeddings_applied x

/-- C9: in the assembled network, every output tensor contains exactly three
embedding applications: the source-token input and the target-token input are
embedded through one and the same token embedding layer, and the path input
through a distinct, independent path embedding layer. -/
theorem C9_token_embedding_shared_path_separate (c : Config)
    (token_vocab_size path_vocab_size target_vocab_size : Nat) :
    ∃ token_layer path_layer : LayerRef,
      token_layer ≠ path_layer ∧
        ∀ out ∈ (create_keras_model c token_vocab_size path_vocab_size
            target_vocab_size).keras_model.outputs,
          embeddings_applied out =
            [(token_layer,
                (create_keras_model c token_vocab_size path_vocab_size
                  target_vocab_size).path_source_token_input),
              (path_layer,
                (create_keras_model c token_vocab_size path_vocab_size
                  target_vocab_size).path_input),
              (token_layer,
                (create_keras_model c token_vocab_size path_vocab_size
                  target_vocab_size).path_target_token_input)] := by
  refine ⟨LayerRef.embedding "token_embedding" token_vocab_size
      c.TOKEN_EMBEDDINGS_SIZE,
    LayerRef.embedding "path_embedding" path_vocab_size
      c.PATH_EMBEDDINGS_SIZE, ?_, ?_⟩
  · intro h
    rw [LayerRef.embedding.injEq] at h
    exact absurd h.1 (by decide)
  · intro out hout
    simp only [create_keras_model, List.mem_cons, List.not_mem_nil,
      or_false] at hout
    rcases hout with rfl | rfl | rfl <;> rfl

/-! ## Prediction (`keras_model.py` lines 199-217) -/

/-- Embedding of `Code2VecModel.predict(predict_data_lines)` (`keras_model.py`
lines 199-217).  The reader's predict-mode row processing and the compiled
network are abstract parameters: `reader_process` embeds running
`predict_input_reader.process_input_from_row_placeholder` on a fed line, and
`network` embeds `keras_model.predict`.  For every line the method runs the
reader and then the network and prints the intermediate results, but the loop
body ends at `# TODO: impl the rest`; the method finishes with a bare
`return`, i.e. it returns Python `None` — embedded as `none` — and never
builds a list of per-line (top-K predicted names, code vector) results. -/
def Code2VecModel.predict {α β : Type} (reader_process : String → α)
    (network : α → β) (predict_data_lines : List String) :
    Option (List (List String × List ℚ)) :=
  let _prediction_results := predict_data_lines.map
    (fun predict_line => network (reader_process predict_line))
  none

/-- C1 (code bug): `predict` routes each line through the reader's
predict-mode parsing and the compiled network, but returns `None` for every
input — in particular for a non-empty list of lines it does not return the
per-line top-K predicted names and code vectors the claim describes. -/
theorem C1_predict_returns_none {α β : Type} (reader_process : String → α)
    (network : α → β) (predict_data_lines : List String) :
    Code2VecModel.predict reader_process network predict_data_lines = none :=
  rfl

end Code2Vec
